import Mathlib

/-!
Shallow embedding of the Imageverto client-side image converter
(`src/script.js`, class `ImageConverter`).

Strings are modelled as `List Char`.  The DOM visibility toggles
(`showElement`/`hideElement`) become Boolean fields of `ConverterState`;
the asynchronous decode inside `convertImage` is modelled by an explicit
`DecodeOutcome` argument, and the canvas operations performed during a
conversion are recorded as a trace of `ConvEvent`s.
-/

/-- A user-supplied file: display name, declared media type, byte size
(mirrors the `File` attributes the script reads: `name`, `type`, `size`). -/
structure JsFile where
  name : List Char
  type : List Char
  size : Nat
deriving DecidableEq

/-- UI / pipeline state owned by `ImageConverter`: the stored file plus the
visibility flags the script toggles through `showElement` / `hideElement`. -/
structure ConverterState where
  currentFile : Option JsFile
  errorMessage : List Char
  errorVisible : Bool
  imagePreviewVisible : Bool
  formatSectionVisible : Bool
  convertBtnVisible : Bool
  qualitySectionVisible : Bool
  progressVisible : Bool
  convertBtnDisabled : Bool
  downloadVisible : Bool
  downloadFileName : List Char
deriving DecidableEq

/-- State right after the constructor runs: no file, nothing shown. -/
def initialState : ConverterState :=
  { currentFile := none
    errorMessage := []
    errorVisible := false
    imagePreviewVisible := false
    formatSectionVisible := false
    convertBtnVisible := false
    qualitySectionVisible := false
    progressVisible := false
    convertBtnDisabled := false
    downloadVisible := false
    downloadFileName := [] }

/-- `this.supportedFormats` (script.js lines 4–13). -/
def supportedFormats : List (List Char) :=
  ["jpeg".toList, "png".toList, "webp".toList, "gif".toList,
   "bmp".toList, "ico".toList, "tiff".toList, "svg".toList]

/-- `this.unsupportedFormats` (script.js lines 14–27). -/
def unsupportedFormats : List (List Char) :=
  ["raw".toList, "cr2".toList, "nef".toList, "arw".toList,
   "dng".toList, "psd".toList, "ai".toList, "eps".toList,
   "heic".toList, "exr".toList, "apng".toList, "jp2".toList]

/-- `showError(message)` (lines 261–265): store the message and reveal the
error section. -/
def showError (s : ConverterState) (msg : List Char) : ConverterState :=
  { s with errorMessage := msg, errorVisible := true }

/-- `clearError()` (lines 267–270): blank the message and hide the error
section. -/
def clearError (s : ConverterState) : ConverterState :=
  { s with errorMessage := [], errorVisible := false }

def invalidFileMsg : List Char := "Please select a valid image file.".toList

def tooLargeMsg : List Char := "File is too large. Maximum size is 10MB.".toList

def unsupportedMsg : List Char :=
  "Conversion for this format is not supported in-browser. Use a desktop app instead.".toList

def decodeFailMsg : List Char :=
  "Failed to load image. Please try a different file.".toList

/-- JavaScript `String.startsWith`: does the second list begin with the
first? -/
def strStartsWith : List Char → List Char → Bool
  | [], _ => true
  | _ :: _, [] => false
  | p :: ps, c :: cs => p = c && strStartsWith ps cs

/-- `handleFileSelect(file)` (lines 103–117).  A missing file or one whose
type does not begin with `image/` is rejected first; then the 10 MiB size
cap; only then is the file stored and the format section revealed. -/
def handleFileSelect (s : ConverterState) (file : Option JsFile) : ConverterState :=
  match file with
  | none => showError s invalidFileMsg
  | some f =>
    if ¬ strStartsWith "image/".toList f.type then
      showError s invalidFileMsg
    else if f.size > 10 * 1024 * 1024 then
      showError s tooLargeMsg
    else
      { s with currentFile := some f
               imagePreviewVisible := true
               formatSectionVisible := true
               errorVisible := false }

/-- `handleFormatChange()` (lines 137–165), with the `formatSelect` value
passed explicitly.  Empty selection hides convert and quality; a format in
`unsupportedFormats` raises the in-browser error and hides both; anything
else hides the error, shows quality exactly for `jpeg`/`webp`, and shows
the convert button. -/
def handleFormatChange (s : ConverterState) (format : List Char) : ConverterState :=
  if format = [] then
    { s with convertBtnVisible := false, qualitySectionVisible := false }
  else if format ∈ unsupportedFormats then
    let s1 := showError s unsupportedMsg
    { s1 with convertBtnVisible := false, qualitySectionVisible := false }
  else if format ∈ ["jpeg".toList, "webp".toList] then
    { s with errorVisible := false, qualitySectionVisible := true,
             convertBtnVisible := true }
  else
    { s with errorVisible := false, qualitySectionVisible := false,
             convertBtnVisible := true }

/-- Whether a character survives the sanitizing regexp replace
`/[^a-zA-Z0-9-_]/g` (line 232). -/
def isAllowedChar (c : Char) : Bool :=
  ('a' ≤ c && c ≤ 'z') || ('A' ≤ c && c ≤ 'Z') || ('0' ≤ c && c ≤ '9') ||
    c = '-' || c = '_'

/-- JavaScript `String.split(sep)` on a single-character separator, returning
every piece (never the empty list of pieces). -/
def splitOnChar (sep : Char) : List Char → List (List Char)
  | [] => [[]]
  | c :: cs =>
    let rest := splitOnChar sep cs
    if c = sep then
      [] :: rest
    else
      match rest with
      | [] => [[c]]
      | r :: rs => (c :: r) :: rs

/-- The sanitized stem computed at lines 231–233: strip every character
outside `[a-zA-Z0-9-_]`, then take `split('.')[0]`. -/
def sanitizedStem (name : List Char) : List Char :=
  (splitOnChar '.' (name.filter isAllowedChar)).headD []

/-- The derived download filename (line 234):
`${originalName}_converted.${format}`. -/
def outputFileName (name format : List Char) : List Char :=
  sanitizedStem name ++ "_converted.".toList ++ format

/-- The spec's wording for the derived name: original name with all
characters outside `[A-Za-z0-9_-]` stripped, truncated to the portion
before the first dot, suffixed `_converted.<format>`. -/
def specDerivedName (name format : List Char) : List Char :=
  (name.filter isAllowedChar).takeWhile (fun c => c ≠ '.')
    ++ "_converted.".toList ++ format

/-- `showProgress()` (lines 244–248). -/
def showProgress (s : ConverterState) : ConverterState :=
  { s with progressVisible := true, convertBtnDisabled := true }

/-- `hideProgress()` (lines 250–254). -/
def hideProgress (s : ConverterState) : ConverterState :=
  { s with progressVisible := false, convertBtnDisabled := false }

/-- `showDownload(dataUrl, format)` (lines 226–242), with the current file's
name passed explicitly: derive the filename, hide progress, reveal the
download section. -/
def showDownload (s : ConverterState) (name format : List Char) : ConverterState :=
  let fn := outputFileName name format
  let s1 := { s with downloadFileName := fn }
  let s2 := hideProgress s1
  { s2 with downloadVisible := true }

/-- Result of the asynchronous image decode inside `convertImage`:
`img.onload` fires, or `img.onerror` does. -/
inductive DecodeOutcome
  | success
  | failure
deriving DecidableEq

/-- An observable step of the conversion pipeline: a progress update, the
decode request, a canvas fill, the composite `drawImage`, or the
`canvas.toDataURL` encode (mime type and raw slider value). -/
inductive ConvEvent
  | progressUpd (pct : Nat) (text : List Char)
  | decodeImage
  | fillSurface (color : List Char)
  | drawImage (x y : Nat)
  | encodeSurface (mime : List Char) (qualitySlider : Nat)
deriving DecidableEq

def loadingMsg : List Char := "Loading image...".toList

def processingMsg : List Char := "Processing image...".toList

def convertingMsg : List Char := "Converting format...".toList

def completeMsg : List Char := "Complete!".toList

/-- `convertImage()` (lines 167–224) with the selected format, the raw
quality-slider value and the decode outcome passed explicitly.  Returns the
new state together with the trace of pipeline events.  The guard at line 171
returns immediately (empty trace, unchanged state) when no file is stored or
the format string is empty; otherwise progress is shown, the decode is
requested, and on `img.onload` the canvas is white-filled exactly for
`jpeg`, composited at (0,0), and encoded as `image/<format>`. -/
def convertImage (s : ConverterState) (format : List Char) (qualitySlider : Nat)
    (outcome : DecodeOutcome) : ConverterState × List ConvEvent :=
  match s.currentFile with
  | none => (s, [])
  | some f =>
    if format = [] then (s, [])
    else
      let s1 := showProgress s
      match outcome with
      | .failure =>
        (hideProgress (showError s1 decodeFailMsg),
         [.progressUpd 20 loadingMsg, .decodeImage])
      | .success =>
        let mime0 := "image/".toList ++ format
        let mime := if format = "jpeg".toList then "image/jpeg".toList else mime0
        let fillEvs :=
          if format = "jpeg".toList then
            [ConvEvent.fillSurface "white".toList]
          else
            []
        let s2 := showDownload s1 f.name format
        (s2,
         [.progressUpd 20 loadingMsg, .decodeImage, .progressUpd 50 processingMsg]
           ++ fillEvs
           ++ [.drawImage 0 0, .progressUpd 80 convertingMsg,
               .encodeSurface mime qualitySlider,
               .progressUpd 100 completeMsg])

/-- The percentages reported through `updateProgress`, in trace order. -/
def progressValues (evs : List ConvEvent) : List Nat :=
  evs.filterMap fun e =>
    match e with
    | .progressUpd p _ => some p
    | _ => none

/-- A sample accepted file with a name exercising the sanitizer. -/
def sampleFile : JsFile :=
  { name := "my photo!!.png".toList, type := "image/png".toList, size := 1024 }

/-- A state in which `sampleFile` has already been accepted. -/
def stateWithFile : ConverterState :=
  handleFileSelect initialState (some sampleFile)

/-- `splitOnChar` always returns at least one piece. -/
theorem splitOnChar_ne_nil (sep : Char) (cs : List Char) :
    splitOnChar sep cs ≠ [] := by
  cases cs with
  | nil => simp [splitOnChar]
  | cons c cs =>
    simp only [splitOnChar]
    by_cases h : c = sep
    · simp [h]
    · simp only [if_neg h]
      cases splitOnChar sep cs <;> simp

/-- The first piece of a split is the run of characters before the first
separator. -/
theorem headD_splitOnChar (sep : Char) (cs : List Char) :
    (splitOnChar sep cs).headD [] = cs.takeWhile (fun c => c ≠ sep) := by
  induction cs with
  | nil => simp [splitOnChar]
  | cons c cs ih =>
    simp only [splitOnChar, List.takeWhile]
    by_cases h : c = sep
    · simp [h]
    · have hne := splitOnChar_ne_nil sep cs
      cases hsp : splitOnChar sep cs with
      | nil => exact absurd hsp hne
      | cons r rs =>
        rw [hsp] at ih
        simp only [List.headD] at ih
        simp [if_neg h, h, ih]

/-- Claim C1, counterexample: after selecting "my photo!!.png" and converting
to webp, the derived download filename is "myphotopng_converted.webp", not
"myphoto_converted.webp" — the regexp replace removes the dot before
`split('.')` runs, so the extension letters survive into the stem. -/
theorem c1_counterexample :
    (showDownload stateWithFile "my photo!!.png".toList "webp".toList).downloadFileName
        = "myphotopng_converted.webp".toList ∧
    (showDownload stateWithFile "my photo!!.png".toList "webp".toList).downloadFileName
        ≠ "myphoto_converted.webp".toList := by
  decide

/-- Claim C1, amended: the derived output filename is the original name with
all characters outside [A-Za-z0-9_-] stripped, truncated to the portion
before the first dot (vacuous, since every dot was stripped), suffixed
"_converted.<format>"; for "my photo!!.png" to webp this is
"myphotopng_converted.webp". -/
theorem c1_filename (s : ConverterState) (name format : List Char) :
    (showDownload s name format).downloadFileName = specDerivedName name format := by
  show outputFileName name format = specDerivedName name format
  unfold outputFileName specDerivedName sanitizedStem
  rw [headD_splitOnChar]

/-- Claim C2, counterexample: a file of 10 MiB + 1 bytes whose declared type
is "text/plain" is rejected with the invalid-file message, not the
size message — the media-type check precedes the size check. -/
theorem c2_counterexample :
    (handleFileSelect initialState
        (some { name := "big.txt".toList, type := "text/plain".toList,
                size := 10 * 1024 * 1024 + 1 })).errorMessage = invalidFileMsg ∧
    (handleFileSelect initialState
        (some { name := "big.txt".toList, type := "text/plain".toList,
                size := 10 * 1024 * 1024 + 1 })).errorMessage ≠ tooLargeMsg := by
  decide

/-- Claim C2, amended: for every file whose declared type starts with
"image/" and whose size exceeds 10 MiB, `handleFileSelect` yields the
file-too-large error (a file of a non-image type is instead rejected with
the invalid-file message first). -/
theorem c2_size_limit (s : ConverterState) (f : JsFile)
    (himg : strStartsWith "image/".toList f.type = true)
    (hsize : f.size > 10 * 1024 * 1024) :
    handleFileSelect s (some f) = showError s tooLargeMsg := by
  simp only [handleFileSelect]
  rw [if_neg (by simpa using himg), if_pos hsize]

theorem c2_size_limit_witness :
    handleFileSelect initialState
        (some { name := "big.png".toList, type := "image/png".toList,
                size := 10 * 1024 * 1024 + 1 }) = showError initialState tooLargeMsg :=
  c2_size_limit initialState _ (by decide) (by decide)

/-- Every rejected format identifier is a non-empty string. -/
theorem ne_nil_of_mem_unsupported {format : List Char}
    (h : format ∈ unsupportedFormats) : format ≠ [] := by
  fin_cases h <;> decide

/-- Claim C3: for every format in the rejected set, `handleFormatChange`
shows the unsupported-format error message and hides the convert button. -/
theorem c3_rejected_formats (s : ConverterState) (format : List Char)
    (h : format ∈ unsupportedFormats) :
    (handleFormatChange s format).errorVisible = true ∧
    (handleFormatChange s format).errorMessage = unsupportedMsg ∧
    (handleFormatChange s format).convertBtnVisible = false := by
  unfold handleFormatChange
  rw [if_neg (ne_nil_of_mem_unsupported h), if_pos h]
  exact ⟨rfl, rfl, rfl⟩

theorem c3_rejected_formats_witness :
    (handleFormatChange initialState "raw".toList).errorVisible = true ∧
    (handleFormatChange initialState "raw".toList).errorMessage = unsupportedMsg ∧
    (handleFormatChange initialState "raw".toList).convertBtnVisible = false :=
  c3_rejected_formats initialState "raw".toList (by decide)

/-- On a non-empty format outside the rejected set, `handleFormatChange`
hides the error, sets quality visibility by the jpeg/webp test, and shows
the convert button. -/
theorem handleFormatChange_not_rejected (s : ConverterState) (format : List Char)
    (hne : format ≠ []) (hnu : format ∉ unsupportedFormats) :
    handleFormatChange s format =
      { s with errorVisible := false
               qualitySectionVisible :=
                 decide (format ∈ ["jpeg".toList, "webp".toList])
               convertBtnVisible := true } := by
  unfold handleFormatChange
  rw [if_neg hne, if_neg hnu]
  by_cases hj : format ∈ ["jpeg".toList, "webp".toList]
  · rw [if_pos hj, decide_eq_true hj]
  · rw [if_neg hj, decide_eq_false hj]

/-- Claim C4: for every format in the convertible set, `handleFormatChange`
shows the convert button, and the quality control is visible iff the format
is jpeg or webp. -/
theorem c4_convertible_formats (s : ConverterState) (format : List Char)
    (h : format ∈ supportedFormats) :
    (handleFormatChange s format).convertBtnVisible = true ∧
    ((handleFormatChange s format).qualitySectionVisible = true ↔
      (format = "jpeg".toList ∨ format = "webp".toList)) := by
  have hne : format ≠ [] := by fin_cases h <;> decide
  have hnu : format ∉ unsupportedFormats := by fin_cases h <;> decide
  rw [handleFormatChange_not_rejected s format hne hnu]
  refine ⟨rfl, ?_⟩
  simp [List.mem_cons]

theorem c4_convertible_formats_witness :
    (handleFormatChange initialState "png".toList).convertBtnVisible = true ∧
    ((handleFormatChange initialState "png".toList).qualitySectionVisible = true ↔
      ("png".toList = "jpeg".toList ∨ "png".toList = "webp".toList)) :=
  c4_convertible_formats initialState "png".toList (by decide)

/-- Claim C5, counterexample: with a file selected and the format "raw" —
which is outside the convertible set — `convertImage` is not a no-op: it
emits pipeline events (decode, composite, encode) and changes the state.
The guard at line 171 only checks that a file is set and the format string
is non-empty. -/
theorem c5_counterexample :
    (convertImage stateWithFile "raw".toList 80 .success).2 ≠ [] ∧
    (convertImage stateWithFile "raw".toList 80 .success).1 ≠ stateWithFile := by
  decide

/-- Claim C5, amended: `convertImage` is a no-op (state unchanged, no
pipeline events) when no SourceFile is set or the selected format string is
empty; membership of the format in the convertible set is not checked. -/
theorem c5_noop (s : ConverterState) (format : List Char) (q : Nat)
    (o : DecodeOutcome) (h : s.currentFile = none ∨ format = []) :
    convertImage s format q o = (s, []) := by
  rcases h with h | h
  · simp [convertImage, h]
  · cases hc : s.currentFile with
    | none => simp [convertImage, hc]
    | some f => simp [convertImage, hc, h]

theorem c5_noop_witness :
    convertImage initialState "jpeg".toList 80 .success = (initialState, []) :=
  c5_noop initialState "jpeg".toList 80 .success (Or.inl rfl)

/-- Claim C6: in a successful conversion the canvas is pre-filled with
opaque white if and only if the target format is jpeg, and for jpeg the
fill happens before the image is composited at (0,0). -/
theorem c6_jpeg_prefill (s : ConverterState) (f : JsFile) (format : List Char)
    (q : Nat) (hf : s.currentFile = some f) (hne : format ≠ []) :
    (ConvEvent.fillSurface "white".toList ∈ (convertImage s format q .success).2 ↔
      format = "jpeg".toList) ∧
    (format = "jpeg".toList →
      (convertImage s format q .success).2 =
        [.progressUpd 20 loadingMsg, .decodeImage, .progressUpd 50 processingMsg,
         .fillSurface "white".toList, .drawImage 0 0, .progressUpd 80 convertingMsg,
         .encodeSurface "image/jpeg".toList q, .progressUpd 100 completeMsg]) := by
  simp only [convertImage, hf]
  rw [if_neg hne]
  by_cases hj : format = "jpeg".toList
  · subst hj
    simp
  · have hj2 : format ≠ ['j', 'p', 'e', 'g'] := by simpa using hj
    simp [hj2]

theorem c6_jpeg_prefill_witness :
    (ConvEvent.fillSurface "white".toList ∈
        (convertImage stateWithFile "jpeg".toList 80 .success).2 ↔
      "jpeg".toList = "jpeg".toList) ∧
    ("jpeg".toList = "jpeg".toList →
      (convertImage stateWithFile "jpeg".toList 80 .success).2 =
        [.progressUpd 20 loadingMsg, .decodeImage, .progressUpd 50 processingMsg,
         .fillSurface "white".toList, .drawImage 0 0, .progressUpd 80 convertingMsg,
         .encodeSurface "image/jpeg".toList 80, .progressUpd 100 completeMsg]) :=
  c6_jpeg_prefill stateWithFile sampleFile "jpeg".toList 80 (by decide) (by decide)

/-- Claim C7: `clearError` blanks the user-visible message and hides the
error section, but leaves the stored SourceFile untouched. -/
theorem c7_clearError_keeps_file (s : ConverterState) :
    (clearError s).currentFile = s.currentFile ∧
    (clearError s).errorMessage = [] ∧
    (clearError s).errorVisible = false :=
  ⟨rfl, rfl, rfl⟩

/-- Claim C8: in every successful conversion run, the reported progress
percentages are exactly 20, 50, 80, 100, in that order. -/
theorem c8_progress_checkpoints (s : ConverterState) (f : JsFile)
    (format : List Char) (q : Nat)
    (hf : s.currentFile = some f) (hne : format ≠ []) :
    progressValues (convertImage s format q .success).2 = [20, 50, 80, 100] := by
  simp only [convertImage, hf]
  rw [if_neg hne]
  by_cases hj : format = "jpeg".toList
  · subst hj
    simp [progressValues]
  · simp [hj, progressValues]

theorem c8_progress_checkpoints_witness :
    progressValues (convertImage stateWithFile "webp".toList 80 .success).2 =
      [20, 50, 80, 100] :=
  c8_progress_checkpoints stateWithFile sampleFile "webp".toList 80
    (by decide) (by decide)

/-- The guard conditions under which `handleFileSelect` rejects its input:
no file, a type not starting with "image/", or a size over 10 MiB. -/
def fileRejected (file : Option JsFile) : Bool :=
  match file with
  | none => true
  | some f => !strStartsWith "image/".toList f.type || f.size > 10 * 1024 * 1024

/-- Claim C9: whenever `handleFileSelect` rejects the offered file, the
stored SourceFile is left unchanged and the error section is shown —
rejection is atomic with respect to pipeline state. -/
theorem c9_rejection_preserves_file (s : ConverterState) (file : Option JsFile)
    (h : fileRejected file = true) :
    (handleFileSelect s file).currentFile = s.currentFile ∧
    (handleFileSelect s file).errorVisible = true := by
  match file with
  | none => exact ⟨rfl, rfl⟩
  | some f =>
    simp only [fileRejected, Bool.or_eq_true, Bool.not_eq_true', decide_eq_true_eq] at h
    simp only [handleFileSelect]
    by_cases ht : strStartsWith "image/".toList f.type = true
    · have hs : f.size > 10 * 1024 * 1024 := by
        rcases h with h | h
        · rw [ht] at h
          cases h
        · exact h
      rw [if_neg (by simpa using ht), if_pos hs]
      exact ⟨rfl, rfl⟩
    · rw [if_pos (by simpa using ht)]
      exact ⟨rfl, rfl⟩

theorem c9_rejection_preserves_file_witness :
    (handleFileSelect stateWithFile
        (some { name := "big.txt".toList, type := "text/plain".toList,
                size := 10 * 1024 * 1024 + 1 })).currentFile =
      stateWithFile.currentFile ∧
    (handleFileSelect stateWithFile
        (some { name := "big.txt".toList, type := "text/plain".toList,
                size := 10 * 1024 * 1024 + 1 })).errorVisible = true :=
  c9_rejection_preserves_file stateWithFile _ (by decide)

/-- Claim C10: a non-empty format in neither the convertible set nor the
rejected set is treated like a convertible one — the convert button is
shown and no error is raised (the error section is hidden and the message
left unchanged); classification depends only on the rejected set. -/
theorem c10_unknown_formats (s : ConverterState) (format : List Char)
    (hne : format ≠ []) (_hns : format ∉ supportedFormats)
    (hnu : format ∉ unsupportedFormats) :
    (handleFormatChange s format).convertBtnVisible = true ∧
    (handleFormatChange s format).errorVisible = false ∧
    (handleFormatChange s format).errorMessage = s.errorMessage := by
  rw [handleFormatChange_not_rejected s format hne hnu]
  exact ⟨rfl, rfl, rfl⟩

theorem c10_unknown_formats_witness :
    (handleFormatChange initialState "avif".toList).convertBtnVisible = true ∧
    (handleFormatChange initialState "avif".toList).errorVisible = false ∧
    (handleFormatChange initialState "avif".toList).errorMessage =
      initialState.errorMessage :=
  c10_unknown_formats initialState "avif".toList (by decide) (by decide) (by decide)
